import Mathlib

/-!
Formal model of the Eyes animation engine of `lib/eyes.py` in the
agent-face-display repository.

Modelling conventions.

* Machine integers: Python ints are unbounded, so they are modelled as `Int`
  (or `Nat` for the small enumeration constants and buffer indices).
* Floats: every float that flows into `int(...)` in the source is of the
  form `k / 10` or one of the literals `0.1, 0.2, 0.3, 0.8, 1.0`, multiplied
  by `12` or `20`.  For each of these products the IEEE-754 double result
  truncates to the same integer as the exact rational product, so normalized
  gaze inputs are modelled as `ℚ` and Python's `int(...)` as truncation
  toward zero (`pyTrunc`).
* Randomness: `random.randint(a, b)` is modelled by an oracle
  `RandGen : Int → Int → Int` passed to each operation that draws.
* Time: `time.ticks_ms()` values are passed in as `now : Int`, and
  `time.ticks_diff(now, t)` is modelled as `now - t` (unbounded counter).
* The display object is write-only for the engine (`fill_rect`,
  `set_window`/`write_data`); those calls do not change engine state and are
  not part of the state model.  The pixel content of the per-eye base buffer
  (`_rebuild_base` writing into `_base_buf`) is modelled separately and
  denotationally: the buffer is a function from pixel index to its 16-bit
  RGB565 value, and each write loop of the source becomes a function update
  on exactly the indices the loop writes.
* A fallible Python expression (`int(s, 16)`, which raises `ValueError` on a
  malformed string) is modelled with `Except`.
-/

set_option maxRecDepth 10000

namespace EyesPy

/-- Colors (RGB888), from the module header of `eyes.py`. -/
def BLACK : Nat := 0x000000

/-- WHITE constant of `eyes.py`. -/
def WHITE : Nat := 0xFFFFFF

/-- EYE_WHITE constant of `eyes.py` (sclera color). -/
def EYE_WHITE : Nat := 0xFFFFFF

/-- PUPIL_COLOR constant of `eyes.py`. -/
def PUPIL_COLOR : Nat := 0x000000

/-- DEFAULT_IRIS constant of `eyes.py` (default iris if no config). -/
def DEFAULT_IRIS : Nat := 0x2288FF

/-- Source `_to565`: RGB888 to packed RGB565.  The source returns the two
bytes `(c >> 8) & 0xFF, c & 0xFF` of the 16-bit value `c`; we keep `c`
itself, which carries the same information. -/
def to565 (color : Nat) : Nat :=
  let r := (color >>> 16) &&& 0xFF
  let g := (color >>> 8) &&& 0xFF
  let b := color &&& 0xFF
  (((r &&& 0xF8) <<< 8) ||| ((g &&& 0xFC) <<< 3)) ||| (b >>> 3)

/-- Blink state constant `_IDLE` of `eyes.py`. -/
def _IDLE : Nat := 0

/-- Blink state constant `_CLOSE_1`. -/
def _CLOSE_1 : Nat := 1

/-- Blink state constant `_CLOSE_2`. -/
def _CLOSE_2 : Nat := 2

/-- Blink state constant `_CLOSE_3`. -/
def _CLOSE_3 : Nat := 3

/-- Blink state constant `_CLOSED`. -/
def _CLOSED : Nat := 4

/-- Expression mode `EXPR_NORMAL`. -/
def EXPR_NORMAL : Nat := 0

/-- Expression mode `EXPR_SLEEPY`. -/
def EXPR_SLEEPY : Nat := 1

/-- Expression mode `EXPR_ASLEEP`. -/
def EXPR_ASLEEP : Nat := 2

/-- Expression mode `EXPR_FOCUSED`. -/
def EXPR_FOCUSED : Nat := 3

/-- Expression mode `EXPR_READING`. -/
def EXPR_READING : Nat := 4

/-- Expression mode `EXPR_SEARCHING`. -/
def EXPR_SEARCHING : Nat := 5

/-- Expression mode `EXPR_THINKING`. -/
def EXPR_THINKING : Nat := 6

/-- Expression mode `EXPR_TERMINAL`. -/
def EXPR_TERMINAL : Nat := 7

/-- Expression mode `EXPR_STRESSED`. -/
def EXPR_STRESSED : Nat := 8

/-- Expression mode `EXPR_HAPPY`. -/
def EXPR_HAPPY : Nat := 9

/-- Python `int(...)` applied to a float value, on the exact rational model:
truncation toward zero (`num.tdiv den` with `den > 0` truncates the quotient
toward zero). -/
def pyTrunc (q : ℚ) : Int :=
  q.num.tdiv q.den

/-- Oracle modelling `random.randint(a, b)`. -/
abbrev RandGen := Int → Int → Int

/-- Python `randint(a, b) / 10` (true division producing a float, modelled
exactly as a rational). -/
def r10 (n : Int) : ℚ := (n : ℚ) / 10

/-! ### The hex color parser (`_parse_hex`) and the `irisColor` config field -/

/-- A dynamically typed Python config value, as far as `_parse_hex`
distinguishes them: an int, a string, or anything else. -/
inductive PyVal where
  | int (n : Int)
  | str (s : String)
  | other
deriving DecidableEq

/-- Hexadecimal value of one character, as accepted by Python `int(s, 16)`. -/
def hexDigitVal (c : Char) : Option Nat :=
  if '0' ≤ c ∧ c ≤ '9' then some (c.toNat - '0'.toNat)
  else if 'a' ≤ c ∧ c ≤ 'f' then some (c.toNat - 'a'.toNat + 10)
  else if 'A' ≤ c ∧ c ≤ 'F' then some (c.toNat - 'A'.toNat + 10)
  else none

/-- Accumulate hex digits left to right; any non-digit makes the whole
string invalid. -/
def parseHexDigits : Nat → List Char → Option Nat
  | acc, [] => some acc
  | acc, c :: rest =>
    match hexDigitVal c with
    | some d => parseHexDigits (acc * 16 + d) rest
    | none => none

/-- Model of Python `int(s, 16)`: optional sign, optional `0x`/`0X` prefix,
then a non-empty run of hex digits; anything else raises `ValueError`
(modelled as `none`).  (Python additionally strips whitespace and allows
underscores between digits; no string in this repository uses those, and the
claims under test do not depend on them.) -/
def pyIntBase16 (s : String) : Option Int :=
  let cs := s.toList
  let signed : Bool × List Char :=
    match cs with
    | '-' :: rest => (true, rest)
    | '+' :: rest => (false, rest)
    | _ => (false, cs)
  let body : List Char :=
    match signed.2 with
    | '0' :: 'x' :: rest => rest
    | '0' :: 'X' :: rest => rest
    | _ => signed.2
  match body with
  | [] => none
  | _ =>
    match parseHexDigits 0 body with
    | some v => some (if signed.1 then -(v : Int) else (v : Int))
    | none => none

/-- Source `_parse_hex`: an int passes through, a string goes through
`int(s, 16)` (which can raise, hence `Except`), anything else falls back to
`DEFAULT_IRIS`. -/
def parse_hex : PyVal → Except Unit Int
  | .int n => .ok n
  | .str s =>
    match pyIntBase16 s with
    | some v => .ok v
    | none => .error ()
  | .other => .ok (DEFAULT_IRIS : Int)

/-- The iris-color computation of `Eyes.__init__`:
`_parse_hex(cfg.get("irisColor", DEFAULT_IRIS))`.  `none` means the config
has no `irisColor` key.  An `error` result models a `ValueError` escaping
the constructor. -/
def initIrisColor (cfgIris : Option PyVal) : Except Unit Int :=
  parse_hex (cfgIris.getD (.int (DEFAULT_IRIS : Int)))

/-! ### Eye geometry and the base-buffer compositor -/

/-- The geometry fields of `Eyes` that `_build_corner_mask` and
`_rebuild_base` read (all from config, defaults in parentheses). -/
structure Geom where
  eye_width : Nat    -- eyeWidth (70)
  eye_height : Nat   -- eyeHeight (80)
  corner_radius : Nat -- cornerRadius (15)
  pupil_size : Nat   -- pupilSize (20)
  iris_size : Nat    -- irisSize (40)
deriving DecidableEq

/-- Default geometry (no config). -/
def defaultGeom : Geom :=
  { eye_width := 70, eye_height := 80, corner_radius := 15
    pupil_size := 20, iris_size := 40 }

/-- Source `_build_corner_mask`: pixel offsets (row-major, `cy * ew + cx`)
outside the quarter-circle of radius `r`, mirrored into all four corners.
Offsets are kept as `Int` exactly as Python computes them. -/
def build_corner_mask (r ew eh : Nat) : List Int :=
  (List.range r).flatMap (fun cy =>
    (List.range r).flatMap (fun cx =>
      if ((r : Int) - cx) ^ 2 + ((r : Int) - cy) ^ 2 > (r : Int) * r then
        [(cy : Int) * ew + cx,
         (cy : Int) * ew + ((ew : Int) - 1 - cx),
         ((eh : Int) - 1 - cy) * ew + cx,
         ((eh : Int) - 1 - cy) * ew + ((ew : Int) - 1 - cx)]
      else []))

/-- Row (`y`) and column (`x`) of pixel index `i` in an `ew`-wide buffer,
and membership of `i` in the clamped square written by one of the
iris/pupil/highlight loops of `_rebuild_base`: the loop runs
`y in range(max(0, y0), min(eh, y0 + size))` and
`x in range(max(0, x0), min(ew, x0 + size))` and writes `y * ew + x`. -/
def inSquare (g : Geom) (x0 y0 : Int) (size : Nat) (i : Nat) : Prop :=
  max 0 y0 ≤ ((i / g.eye_width : Nat) : Int) ∧
  ((i / g.eye_width : Nat) : Int) < min (g.eye_height : Int) (y0 + (size : Int)) ∧
  max 0 x0 ≤ ((i % g.eye_width : Nat) : Int) ∧
  ((i % g.eye_width : Nat) : Int) < min (g.eye_width : Int) (x0 + (size : Int))

instance inSquare.dec (g : Geom) (x0 y0 : Int) (size : Nat) (i : Nat) :
    Decidable (inSquare g x0 y0 size i) := by
  unfold inSquare
  infer_instance

/-- Denotation of the whole-buffer white fill of `_rebuild_base`
(`for i in range(0, len(buf), 2)` covers every pixel of the
`ew * eh`-pixel buffer). -/
def fillAll (g : Geom) (c : Nat) (buf : Nat → Nat) : Nat → Nat :=
  fun i => if i < g.eye_width * g.eye_height then c else buf i

/-- Denotation of the corner-blackening loop of `_rebuild_base`
(`for offset in self._corner_mask: buf[offset*2] = b_hi; ...`). -/
def blackCorners (mask : List Int) (c : Nat) (buf : Nat → Nat) : Nat → Nat :=
  fun i => if (i : Int) ∈ mask then c else buf i

/-- Denotation of one clamped-square fill loop of `_rebuild_base`. -/
def fillClampedSquare (g : Geom) (x0 y0 : Int) (size : Nat) (c : Nat)
    (buf : Nat → Nat) : Nat → Nat :=
  fun i => if inSquare g x0 y0 size i then c else buf i

/-- Iris left edge: `ew // 2 + self.pupil_offset_x - self.iris_size // 2`. -/
def irisX (g : Geom) (ox : Int) : Int :=
  (g.eye_width : Int) / 2 + ox - (g.iris_size : Int) / 2

/-- Iris top edge: `eh // 2 + self.pupil_offset_y - self.iris_size // 2`. -/
def irisY (g : Geom) (oy : Int) : Int :=
  (g.eye_height : Int) / 2 + oy - (g.iris_size : Int) / 2

/-- Pupil left edge: `ew // 2 + self.pupil_offset_x - self.pupil_size // 2`. -/
def pupilX (g : Geom) (ox : Int) : Int :=
  (g.eye_width : Int) / 2 + ox - (g.pupil_size : Int) / 2

/-- Pupil top edge: `eh // 2 + self.pupil_offset_y - self.pupil_size // 2`. -/
def pupilY (g : Geom) (oy : Int) : Int :=
  (g.eye_height : Int) / 2 + oy - (g.pupil_size : Int) / 2

/-- Source `_rebuild_base` for one eye, as a denotation from pixel index to
16-bit color: fresh zeroed buffer, white fill, corner blackening, iris
square, pupil square, 5×5 highlight at `(px + 4, py + 4)` — in source
order, later writes winning. -/
def rebuild_base (g : Geom) (iris565 : Nat) (mask : List Int)
    (ox oy : Int) : Nat → Nat :=
  let b1 := fillAll g (to565 EYE_WHITE) (fun _ => 0)
  let b2 := blackCorners mask (to565 BLACK) b1
  let b3 := fillClampedSquare g (irisX g ox) (irisY g oy) g.iris_size iris565 b2
  let b4 := fillClampedSquare g (pupilX g ox) (pupilY g oy) g.pupil_size
    (to565 PUPIL_COLOR) b3
  fillClampedSquare g (pupilX g ox + 4) (pupilY g oy + 4) 5 (to565 WHITE) b4

/-! ### The mutable engine state and its operations -/

/-- The fields of the `Eyes` instance that the blink machine, the eyelid
easing controller, the gaze/idle scheduler, `set_expression` and `update`
read or write.  Pixel buffers are modelled separately (see `rebuild_base`);
display and decoration drawing have no engine-state effect. -/
structure EyesState where
  expression : Nat
  eyelid_pct : Int
  target_lid : Int
  lid_speed : Int
  prev_lid_pct : Int
  pupil_offset_x : Int
  pupil_offset_y : Int
  prev_offset_x : Int
  prev_offset_y : Int
  blink_state : Nat
  blink_time : Int
  last_blink : Int
  next_blink : Int
  idle_mode : Bool
  last_move : Int
  next_move : Int
  read_dir : Int
  read_pos : Int
  read_speed : Int
  last_read : Int
  search_target_x : ℚ
  search_target_y : ℚ
  last_search : Int
  search_speed : Int
  happy_squint : Int
  blink_min : Int
  blink_max : Int
deriving DecidableEq

/-- Source `look_at(x, y)`: `max_x = 12`, `max_y = 20`,
`pupil_offset_x = int(x * max_x)`, `pupil_offset_y = int(y * max_y)`. -/
def look_at (x y : ℚ) (s : EyesState) : EyesState :=
  { s with pupil_offset_x := pyTrunc (x * 12)
           pupil_offset_y := pyTrunc (y * 20) }

/-- Source `look_random`: `look_at(randint(-10, 10) / 10, randint(-5, 5) / 10)`. -/
def look_random (r : RandGen) (s : EyesState) : EyesState :=
  look_at (r10 (r (-10) 10)) (r10 (r (-5) 5)) s

/-- Source `_start_blink`: enter `_CLOSE_1`, stamp `_blink_time`
(`_draw_eyelids(1)` touches only the display). -/
def start_blink (now : Int) (s : EyesState) : EyesState :=
  { s with blink_state := _CLOSE_1, blink_time := now }

/-- Source `_update_blink`.  Returns the updated state and the boolean
`self._blink_state != _IDLE` evaluated after the transition.  The
`_CLOSED → _IDLE` branch re-blits (`_blit_both` stores the pupil offsets
into the `prev_offset` fields), stamps `last_blink`, and draws the next
blink interval, whose range depends on the current expression. -/
def update_blink (now : Int) (r : RandGen) (s : EyesState) :
    EyesState × Bool :=
  if s.blink_state = _IDLE then (s, false)
  else
    let elapsed := now - s.blink_time
    let s' :=
      if s.blink_state = _CLOSE_1 then
        if 15 ≤ elapsed then
          { s with blink_state := _CLOSE_2, blink_time := now } else s
      else if s.blink_state = _CLOSE_2 then
        if 15 ≤ elapsed then
          { s with blink_state := _CLOSE_3, blink_time := now } else s
      else if s.blink_state = _CLOSE_3 then
        if 15 ≤ elapsed then
          { s with blink_state := _CLOSED, blink_time := now } else s
      else if s.blink_state = _CLOSED then
        if 60 ≤ elapsed then
          { s with prev_offset_x := s.pupil_offset_x
                   prev_offset_y := s.pupil_offset_y
                   blink_state := _IDLE
                   last_blink := now
                   next_blink :=
                     if s.expression = EXPR_SLEEPY then r 6000 12000
                     else if s.expression = EXPR_HAPPY then r s.blink_min s.blink_max
                     else r s.blink_min s.blink_max }
        else s
      else s
    (s', decide (s'.blink_state ≠ _IDLE))

/-- The new eyelid percentage computed by `_update_eyelid` when
`_eyelid_pct != _target_lid`:
`min(pct + speed, target)` going up, `max(pct - speed, target)` going
down. -/
def newPct (s : EyesState) : Int :=
  if s.eyelid_pct < s.target_lid then
    min (s.eyelid_pct + s.lid_speed) s.target_lid
  else
    max (s.eyelid_pct - s.lid_speed) s.target_lid

/-- Source `_update_eyelid`.  Returns `(state, changed)`.  On a change it
runs `_apply_eyelid` (which stores `prev_lid_pct`) and `_blit_both` (which
stores the `prev_offset` fields); `gc.collect()` and `_draw_closed_line()`
at `pct >= 100` have no state effect. -/
def update_eyelid (s : EyesState) : EyesState × Bool :=
  if s.eyelid_pct = s.target_lid then (s, false)
  else
    ({ s with eyelid_pct := newPct s
              prev_lid_pct := newPct s
              prev_offset_x := s.pupil_offset_x
              prev_offset_y := s.pupil_offset_y }, true)

/-- Convenience: the state after one `_update_eyelid` step. -/
def lidStep (s : EyesState) : EyesState := (update_eyelid s).1

/-- Source `update_pupils`: if the offsets moved since the last blit,
rebuild the base buffer, re-apply the eyelid (storing `prev_lid_pct`) and
blit (storing the `prev_offset` fields). -/
def update_pupils (s : EyesState) : EyesState :=
  if s.pupil_offset_x = s.prev_offset_x ∧ s.pupil_offset_y = s.prev_offset_y
  then s
  else
    { s with prev_lid_pct := s.eyelid_pct
             prev_offset_x := s.pupil_offset_x
             prev_offset_y := s.pupil_offset_y }

/-- Source `_update_reading`: timed left-right sweep with direction reversal
at ±10 and asymmetric speeds. -/
def update_reading (now : Int) (s : EyesState) : EyesState :=
  if now - s.last_read < s.read_speed then s
  else
    let pos := s.read_pos + s.read_dir * 2
    let dir := if 10 ≤ pos then -1 else if pos ≤ -10 then 1 else s.read_dir
    let speed := if 10 ≤ pos then 80 else if pos ≤ -10 then 200 else s.read_speed
    look_at (r10 pos) 0.1
      { s with last_read := now, read_pos := pos, read_dir := dir
               read_speed := speed }

/-- Source `_update_searching`: timed random darts. -/
def update_searching (now : Int) (r : RandGen) (s : EyesState) : EyesState :=
  if now - s.last_search < s.search_speed then s
  else
    let sx := r10 (r (-8) 8)
    let sy := r10 (r (-4) 4)
    { look_at sx sy
        { s with last_search := now, search_target_x := sx
                 search_target_y := sy }
      with search_speed := r 200 600 }

/-- Source `_update_thinking`: slow up-drift every 3000 ms. -/
def update_thinking (now : Int) (r : RandGen) (s : EyesState) : EyesState :=
  if 3000 < now - s.last_move then
    { look_at (r10 (r 1 5)) (r10 (r (-10) (-5))) s with last_move := now }
  else s

/-- Source `_update_stressed`: jitter every 1500 ms. -/
def update_stressed (now : Int) (r : RandGen) (s : EyesState) : EyesState :=
  if 1500 < now - s.last_move then
    { look_at (r10 (r (-6) 6)) (r10 (r (-3) 3)) s with last_move := now }
  else s

/-- Source `set_expression(expr)`: exact string dispatch with a fall-through
`else` branch ("normal", respecting a configured happy squint). -/
def set_expression (now : Int) (r : RandGen) (expr : String)
    (s : EyesState) : EyesState :=
  if expr = "asleep" then
    look_at 0 1
      { s with expression := EXPR_ASLEEP, target_lid := 100, lid_speed := 1 }
  else if expr = "sleepy" then
    look_at 0 1
      { s with expression := EXPR_SLEEPY, target_lid := 45, lid_speed := 1 }
  else if expr = "focused" then
    { look_at 0 0.1
        { s with expression := EXPR_FOCUSED, target_lid := 25, lid_speed := 2 }
      with next_blink := r 5000 10000 }
  else if expr = "reading" then
    { s with expression := EXPR_READING, target_lid := 10, lid_speed := 2
             read_pos := -10, read_dir := 1, last_read := now }
  else if expr = "searching" then
    { s with expression := EXPR_SEARCHING, target_lid := 0, lid_speed := 3
             last_search := now, next_blink := r 2000 4000 }
  else if expr = "thinking" then
    { look_at 0.3 (-0.8)
        { s with expression := EXPR_THINKING, target_lid := 0, lid_speed := 2 }
      with next_blink := r 4000 8000 }
  else if expr = "terminal" then
    { look_at 0 0
        { s with expression := EXPR_TERMINAL, target_lid := 20, lid_speed := 2 }
      with next_blink := r 6000 12000 }
  else if expr = "stressed" then
    { s with expression := EXPR_STRESSED, target_lid := 0, lid_speed := 3
             next_blink := r 1500 3000 }
  else if expr = "done" then
    look_at 0 0.2
      (if 0 < s.happy_squint then
        { s with expression := EXPR_HAPPY, target_lid := s.happy_squint
                 lid_speed := 3 }
      else
        { s with expression := EXPR_NORMAL, target_lid := 0, lid_speed := 3 })
  else if expr = "happy" then
    { s with expression := EXPR_HAPPY, target_lid := s.happy_squint
             lid_speed := 2 }
  else
    if 0 < s.happy_squint then
      { s with expression := EXPR_HAPPY, target_lid := s.happy_squint
               lid_speed := 3 }
    else
      { s with expression := EXPR_NORMAL, target_lid := 0, lid_speed := 3 }

/-- Source `update`: blink machine first, then eyelid easing, then the
asleep guard, then blink triggering, then the expression-specific motion
branches, then `update_pupils`. -/
def update (now : Int) (r : RandGen) (s : EyesState) : EyesState :=
  let p := update_blink now r s
  if p.2 then p.1
  else
    let q := update_eyelid p.1
    if q.2 then q.1
    else
      let s2 := q.1
      if s2.expression = EXPR_ASLEEP ∧ 100 ≤ s2.eyelid_pct then s2
      else if s2.next_blink < now - s2.last_blink then start_blink now s2
      else
        let s3 :=
          if s2.expression = EXPR_READING then update_reading now s2
          else if s2.expression = EXPR_SEARCHING then update_searching now r s2
          else if s2.expression = EXPR_THINKING then update_thinking now r s2
          else if s2.expression = EXPR_STRESSED then update_stressed now r s2
          else if s2.expression = EXPR_FOCUSED ∨ s2.expression = EXPR_TERMINAL then
            if 1500 < now - s2.last_move then
              { look_at (r10 (r (-6) 6)) (r10 (r (-2) 3)) s2 with last_move := now }
            else s2
          else if s2.expression = EXPR_SLEEPY then
            if s2.next_move < now - s2.last_move then
              { look_at (r10 (r (-2) 2)) 1 s2 with
                  next_move := r 4000 8000, last_move := now }
            else s2
          else if s2.expression = EXPR_HAPPY then
            if s2.next_move < now - s2.last_move then
              { look_at (r10 (r (-6) 6)) (r10 (r (-3) 3)) s2 with
                  next_move := r 3000 6000, last_move := now }
            else s2
          else if s2.idle_mode then
            if s2.next_move < now - s2.last_move then
              { look_random r s2 with
                  next_move := r 2000 4000, last_move := now }
            else s2
          else s2
        update_pupils s3

/-- Fold a sequence of `update` ticks (each with its own `now` and random
oracle) over a state: the per-frame driver loop. -/
def runUpdates (ticks : List (Int × RandGen)) (s : EyesState) : EyesState :=
  ticks.foldl (fun st t => update t.1 t.2 st) s

/-- Fold a sequence of `_update_blink` calls over a state. -/
def runBlink (ticks : List (Int × RandGen)) (s : EyesState) : EyesState :=
  ticks.foldl (fun st t => (update_blink t.1 t.2 st).1) s

/-- A deterministic random oracle used for concrete witnesses: always the
lower bound. -/
def rfun0 : RandGen := fun a _ => a

/-- The engine state right after `Eyes.__init__` with the default (empty)
config on a 240×280 display: normal expression, lids open, blink idle,
timers stamped with the construction time `t0`, random intervals drawn from
`r`. -/
def initState (t0 : Int) (r : RandGen) : EyesState where
  expression := EXPR_NORMAL
  eyelid_pct := 0
  target_lid := 0
  lid_speed := 2
  prev_lid_pct := 0
  pupil_offset_x := 0
  pupil_offset_y := 0
  prev_offset_x := 0
  prev_offset_y := 0
  blink_state := _IDLE
  blink_time := 0
  last_blink := t0
  next_blink := r 3000 6000
  idle_mode := true
  last_move := t0
  next_move := r 2000 4000
  read_dir := 1
  read_pos := -10
  read_speed := 200
  last_read := t0
  search_target_x := 0
  search_target_y := 0
  last_search := t0
  search_speed := 300
  happy_squint := 0
  blink_min := 3000
  blink_max := 6000

/-- A concrete state sitting in the final `_CLOSED` blink stage with a
partially dropped eyelid still easing toward 0 (used to exercise the
update ordering). -/
def sClosed : EyesState :=
  { initState 0 rfun0 with
      blink_state := _CLOSED, blink_time := 0
      eyelid_pct := 10, target_lid := 0, lid_speed := 3 }

/-- A concrete state in the first closing stage of a blink. -/
def sBlinking : EyesState :=
  { initState 0 rfun0 with blink_state := _CLOSE_1, blink_time := 0 }

/-- The recognized expression vocabulary of `set_expression` (the strings it
compares against; everything else takes the `else` branch). -/
def recognizedExpressions : List String :=
  ["asleep", "sleepy", "focused", "reading", "searching", "thinking",
   "terminal", "stressed", "done", "happy"]

/-- Invariant holding along the asleep-convergence trajectory: asleep
expression with target 100 at rate 1, blink idle, eyelid within range, gaze
parked at `look_at(0, 1.0)` = (0, 20). -/
def AsleepInv (t : EyesState) : Prop :=
  t.expression = EXPR_ASLEEP ∧ t.target_lid = 100 ∧ t.lid_speed = 1 ∧
  t.blink_state = _IDLE ∧ 0 ≤ t.eyelid_pct ∧ t.eyelid_pct ≤ 100 ∧
  t.pupil_offset_x = 0 ∧ t.pupil_offset_y = 20

end EyesPy

namespace EyesPy

/-! ### Helper lemmas -/

/-- Index bound for a row-major cell `a * ew + b`. -/
theorem cell_index_bound (ew eh : Nat) (a b : Int)
    (ha0 : 0 ≤ a) (ha : a < (eh : Int)) (hb0 : 0 ≤ b) (hb : b < (ew : Int)) :
    0 ≤ a * ew + b ∧ a * ew + b < (ew : Int) * eh := by
  constructor
  · have := mul_nonneg ha0 (by positivity : (0 : Int) ≤ (ew : Int))
    omega
  · have h1 : a * ew ≤ ((eh : Int) - 1) * ew :=
      mul_le_mul_of_nonneg_right (by omega) (by positivity)
    have h2 : ((eh : Int) - 1) * ew + ew = (ew : Int) * eh := by ring
    omega

/-- On nonnegative rationals, truncation toward zero agrees with the
floor. -/
theorem pyTrunc_eq_floor (q : ℚ) (h : 0 ≤ q) : pyTrunc q = ⌊q⌋ := by
  unfold pyTrunc
  rw [Int.tdiv_eq_ediv (Rat.num_nonneg.mpr h) (by positivity)]
  exact Rat.floor_def.symm

/-- Truncation toward zero is odd. -/
theorem pyTrunc_neg (q : ℚ) : pyTrunc (-q) = -pyTrunc q := by
  unfold pyTrunc
  rw [Rat.neg_num]
  rw [show (-q).den = q.den from rfl]
  exact Int.neg_tdiv _ _

/-- Truncation toward zero of an integer is that integer. -/
theorem pyTrunc_intCast (n : ℤ) : pyTrunc (n : ℚ) = n := by
  unfold pyTrunc
  rw [Rat.num_intCast, Rat.den_intCast]
  simp

/-- Truncation toward zero respects symmetric integer bounds. -/
theorem pyTrunc_bound (q : ℚ) (m : ℕ) (h1 : -(m : ℚ) ≤ q) (h2 : q ≤ m) :
    -(m : Int) ≤ pyTrunc q ∧ pyTrunc q ≤ m := by
  rcases le_or_lt 0 q with h | h
  · rw [pyTrunc_eq_floor q h]
    constructor
    · have : (0 : Int) ≤ ⌊q⌋ := Int.floor_nonneg.mpr h
      omega
    · have : ⌊q⌋ ≤ ⌊(m : ℚ)⌋ := Int.floor_le_floor h2
      simpa using this
  · have key : pyTrunc q = -⌊-q⌋ := by
      calc pyTrunc q = pyTrunc (-(-q)) := by rw [neg_neg]
        _ = -pyTrunc (-q) := pyTrunc_neg (-q)
        _ = -⌊-q⌋ := by rw [pyTrunc_eq_floor (-q) (by linarith)]
    rw [key]
    constructor
    · have : ⌊-q⌋ ≤ ⌊(m : ℚ)⌋ := Int.floor_le_floor (by linarith)
      simp only [Int.floor_natCast] at this
      omega
    · have : (0 : Int) ≤ ⌊-q⌋ := Int.floor_nonneg.mpr (by linarith)
      omega

/-! ### C10 -/

/-- C10: for every geometry with `corner_radius <= min(eye_width,
eye_height)`, every offset produced by `_build_corner_mask` lies within
`[0, eye_width * eye_height)`, so the corner-blackening writes of
`_rebuild_base` index the base buffer strictly in bounds. -/
theorem corner_mask_offsets_in_bounds (r ew eh : Nat)
    (hw : r ≤ ew) (hh : r ≤ eh) :
    ∀ o ∈ build_corner_mask r ew eh, 0 ≤ o ∧ o < (ew : Int) * eh := by
  intro o ho
  unfold build_corner_mask at ho
  simp only [List.mem_flatMap, List.mem_range] at ho
  obtain ⟨cy, hcy, cx, hcx, hmem⟩ := ho
  by_cases hc : ((r : Int) - cx) ^ 2 + ((r : Int) - cy) ^ 2 > (r : Int) * r
  · rw [if_pos hc] at hmem
    simp only [List.mem_cons, List.not_mem_nil, or_false] at hmem
    rcases hmem with h | h | h | h <;> subst h <;>
      exact cell_index_bound ew eh _ _ (by omega) (by omega) (by omega) (by omega)
  · rw [if_neg hc] at hmem
    simp at hmem

/-- Witness for C10 at a concrete small geometry: offset `0` of the mask
for radius 2 in a 3×3 eye is in `[0, 9)`. -/
theorem corner_mask_offsets_in_bounds_witness :
    (0 : Int) ≤ 0 ∧ (0 : Int) < (3 : Int) * 3 :=
  corner_mask_offsets_in_bounds 2 3 3 (by decide) (by decide) 0 (by decide)

end EyesPy

namespace EyesPy

/-! ### C1 -/

/-- C1 (counterexample): the claim "after `_rebuild_base` every pixel at an
offset listed in the precomputed CornerMask holds the background (black)
color, for every gaze offset reachable through `look_at` with inputs in
[-1,1]×[-1,1]" is false at the maximal offset `look_at(-1, -1)`: with the
default geometry, corner-mask pixel 3 (x=3, y=0 in the top-left corner) is
overwritten by the clipped iris square and holds the iris color, not
black. -/
theorem c1_counterexample_corner_pixel_iris_at_max_gaze :
    ((3 : Int) ∈ build_corner_mask 15 70 80)
  ∧ (look_at (-1) (-1) (initState 0 rfun0)).pupil_offset_x = -12
  ∧ (look_at (-1) (-1) (initState 0 rfun0)).pupil_offset_y = -20
  ∧ rebuild_base defaultGeom (to565 DEFAULT_IRIS) (build_corner_mask 15 70 80)
      (-12) (-20) 3 = to565 DEFAULT_IRIS
  ∧ to565 DEFAULT_IRIS ≠ to565 BLACK := by
  refine ⟨by decide, ?_, ?_, by decide, by decide⟩
  · show pyTrunc ((-1 : ℚ) * 12) = -12
    rw [show ((-1 : ℚ) * 12) = ((-12 : ℤ) : ℚ) by norm_num, pyTrunc_intCast]
  · show pyTrunc ((-1 : ℚ) * 20) = -20
    rw [show ((-1 : ℚ) * 20) = ((-20 : ℤ) : ℚ) by norm_num, pyTrunc_intCast]

/-- C1 (amended): after `_rebuild_base`, every corner-mask pixel that is not
covered by the clipped iris, pupil, or highlight squares holds the
background (black) color, for every gaze offset; at extreme gaze offsets
the iris/pupil/highlight squares may overwrite corner-mask pixels (see the
counterexample). -/
theorem c1_corner_pixels_black_outside_draw_squares (g : Geom) (iris565 : Nat)
    (ox oy : Int) (i : Nat)
    (hm : (i : Int) ∈ build_corner_mask g.corner_radius g.eye_width g.eye_height)
    (hi : ¬ inSquare g (irisX g ox) (irisY g oy) g.iris_size i)
    (hp : ¬ inSquare g (pupilX g ox) (pupilY g oy) g.pupil_size i)
    (hh : ¬ inSquare g (pupilX g ox + 4) (pupilY g oy + 4) 5 i) :
    rebuild_base g iris565
      (build_corner_mask g.corner_radius g.eye_width g.eye_height) ox oy i
      = to565 BLACK := by
  unfold rebuild_base
  simp only [fillClampedSquare, blackCorners]
  rw [if_neg hh, if_neg hp, if_neg hi, if_pos hm]

/-- Witness for the amended C1 at gaze (0,0) and corner-mask pixel 0. -/
theorem c1_corner_pixels_black_outside_draw_squares_witness :
    rebuild_base defaultGeom (to565 DEFAULT_IRIS)
      (build_corner_mask defaultGeom.corner_radius defaultGeom.eye_width
        defaultGeom.eye_height) 0 0 0 = to565 BLACK :=
  c1_corner_pixels_black_outside_draw_squares defaultGeom (to565 DEFAULT_IRIS)
    0 0 0 (by decide) (by decide) (by decide) (by decide)

/-! ### C9 -/

/-- C9: for all inputs (x, y) in [-1,1]×[-1,1], `look_at` sets
`pupil_offset_x` within [-12,12] and `pupil_offset_y` within [-20,20], and
the offsets are a deterministic function of (x, y) alone: any two states
given identical inputs receive identical offsets. -/
theorem c9_look_at_bounded_deterministic (x y : ℚ) (s t : EyesState)
    (hx1 : -1 ≤ x) (hx2 : x ≤ 1) (hy1 : -1 ≤ y) (hy2 : y ≤ 1) :
    (-12 ≤ (look_at x y s).pupil_offset_x ∧ (look_at x y s).pupil_offset_x ≤ 12)
  ∧ (-20 ≤ (look_at x y s).pupil_offset_y ∧ (look_at x y s).pupil_offset_y ≤ 20)
  ∧ (look_at x y s).pupil_offset_x = (look_at x y t).pupil_offset_x
  ∧ (look_at x y s).pupil_offset_y = (look_at x y t).pupil_offset_y := by
  have hx : -((12 : ℕ) : ℚ) ≤ x * 12 ∧ x * 12 ≤ ((12 : ℕ) : ℚ) := by
    constructor <;> push_cast <;> nlinarith
  have hy : -((20 : ℕ) : ℚ) ≤ y * 20 ∧ y * 20 ≤ ((20 : ℕ) : ℚ) := by
    constructor <;> push_cast <;> nlinarith
  have bx := pyTrunc_bound (x * 12) 12 hx.1 hx.2
  have by' := pyTrunc_bound (y * 20) 20 hy.1 hy.2
  refine ⟨⟨?_, ?_⟩, ⟨?_, ?_⟩, rfl, rfl⟩ <;>
    simp only [look_at] <;> omega

end EyesPy

namespace EyesPy

/-! ### C6, C7: expression-name dispatch -/

/-- Any name outside the recognized vocabulary takes the same branch of
`set_expression` as the unrecognized name "normal". -/
theorem set_expression_unrecognized (now : Int) (r : RandGen) (name : String)
    (s : EyesState) (h : name ∉ recognizedExpressions) :
    set_expression now r name s = set_expression now r "normal" s := by
  simp only [recognizedExpressions, List.mem_cons, List.not_mem_nil, or_false,
    not_or] at h
  obtain ⟨h1, h2, h3, h4, h5, h6, h7, h8, h9, h10⟩ := h
  unfold set_expression
  rw [if_neg h1, if_neg h2, if_neg h3, if_neg h4, if_neg h5, if_neg h6,
    if_neg h7, if_neg h8, if_neg h9, if_neg h10,
    if_neg (by decide : ¬("normal" : String) = "asleep"),
    if_neg (by decide : ¬("normal" : String) = "sleepy"),
    if_neg (by decide : ¬("normal" : String) = "focused"),
    if_neg (by decide : ¬("normal" : String) = "reading"),
    if_neg (by decide : ¬("normal" : String) = "searching"),
    if_neg (by decide : ¬("normal" : String) = "thinking"),
    if_neg (by decide : ¬("normal" : String) = "terminal"),
    if_neg (by decide : ¬("normal" : String) = "stressed"),
    if_neg (by decide : ¬("normal" : String) = "done"),
    if_neg (by decide : ¬("normal" : String) = "happy")]

/-- C6 (counterexample): the claim "`set_expression` is case-insensitive"
is false: `set_expression("SLEEPY")` leaves a different target eyelid level
and a different expression mode than `set_expression("sleepy")` on the
freshly constructed default engine. -/
theorem c6_counterexample_uppercase_name_differs :
    (set_expression 0 rfun0 "SLEEPY" (initState 0 rfun0)).target_lid ≠
      (set_expression 0 rfun0 "sleepy" (initState 0 rfun0)).target_lid ∧
    (set_expression 0 rfun0 "SLEEPY" (initState 0 rfun0)).expression ≠
      (set_expression 0 rfun0 "sleepy" (initState 0 rfun0)).expression := by
  constructor <;> decide

/-- C6 (amended): `set_expression` matches expression names
case-sensitively (exact lowercase strings); a capitalization variant of a
recognized name, such as "SLEEPY", is treated as unrecognized and leaves
the engine in the same state as the fallback name "normal" — not in the
state of the lowercase name. -/
theorem c6_amended_uppercase_treated_as_unrecognized (now : Int)
    (r : RandGen) (s : EyesState) :
    set_expression now r "SLEEPY" s = set_expression now r "normal" s :=
  set_expression_unrecognized now r "SLEEPY" s (by decide)

/-- C7: for every string that is not a recognized expression name,
`set_expression` leaves the engine in the same state as
`set_expression("normal")` (the model is a total function, so no exception
can escape). -/
theorem c7_unrecognized_expression_behaves_as_normal (now : Int)
    (r : RandGen) (name : String) (s : EyesState)
    (h : name ∉ recognizedExpressions) :
    set_expression now r name s = set_expression now r "normal" s :=
  set_expression_unrecognized now r name s h

/-- Witness for C7 at the spec's concrete input "quizzical". -/
theorem c7_unrecognized_expression_behaves_as_normal_witness :
    set_expression 0 rfun0 "quizzical" (initState 0 rfun0) =
      set_expression 0 rfun0 "normal" (initState 0 rfun0) :=
  c7_unrecognized_expression_behaves_as_normal 0 rfun0 "quizzical"
    (initState 0 rfun0) (by decide)

/-! ### C8: iris-color configuration errors -/

/-- C8 (counterexample): the claim "for every malformed irisColor value
construction succeeds with the default iris color" is false: the malformed
hex string "zzz" makes `_parse_hex` call `int("zzz", 16)`, which raises
`ValueError` out of the constructor instead of falling back. -/
theorem c8_counterexample_malformed_string_raises :
    initIrisColor (some (.str "zzz")) = .error () := rfl

/-- C8 (amended): construction recovers with a default only partially: an
int `irisColor` passes through, a missing key or a value of non-int,
non-string type yields the documented default, and a well-formed hex string
parses — but a malformed hex string raises `ValueError`, which propagates
out of construction. -/
theorem c8_amended_iris_fallback_partial :
    (∀ n : Int, initIrisColor (some (.int n)) = .ok n)
  ∧ initIrisColor (some .other) = .ok (DEFAULT_IRIS : Int)
  ∧ initIrisColor none = .ok (DEFAULT_IRIS : Int)
  ∧ initIrisColor (some (.str "0x2288FF")) = .ok (DEFAULT_IRIS : Int)
  ∧ initIrisColor (some (.str "zzz")) = .error () :=
  ⟨fun _ => rfl, rfl, rfl, rfl, rfl⟩

/-- Witness for C9 at the extreme corner input (1, -1) of the unit box. -/
theorem c9_look_at_bounded_deterministic_witness :
    (-12 ≤ (look_at 1 (-1) (initState 0 rfun0)).pupil_offset_x ∧
      (look_at 1 (-1) (initState 0 rfun0)).pupil_offset_x ≤ 12)
  ∧ (-20 ≤ (look_at 1 (-1) (initState 0 rfun0)).pupil_offset_y ∧
      (look_at 1 (-1) (initState 0 rfun0)).pupil_offset_y ≤ 20)
  ∧ (look_at 1 (-1) (initState 0 rfun0)).pupil_offset_x =
      (look_at 1 (-1) (initState 0 rfun0)).pupil_offset_x
  ∧ (look_at 1 (-1) (initState 0 rfun0)).pupil_offset_y =
      (look_at 1 (-1) (initState 0 rfun0)).pupil_offset_y :=
  c9_look_at_bounded_deterministic 1 (-1) (initState 0 rfun0)
    (initState 0 rfun0) (by norm_num) (by norm_num) (by norm_num) (by norm_num)

end EyesPy

namespace EyesPy

/-! ### State-machine helper lemmas -/

/-- `_update_blink` never touches the eyelid fields, the pupil offsets, the
expression, or the configured blink bounds. -/
theorem update_blink_preserves (now : Int) (r : RandGen) (s : EyesState) :
    (update_blink now r s).1.eyelid_pct = s.eyelid_pct
  ∧ (update_blink now r s).1.target_lid = s.target_lid
  ∧ (update_blink now r s).1.lid_speed = s.lid_speed
  ∧ (update_blink now r s).1.pupil_offset_x = s.pupil_offset_x
  ∧ (update_blink now r s).1.pupil_offset_y = s.pupil_offset_y
  ∧ (update_blink now r s).1.expression = s.expression := by
  simp only [update_blink]
  split_ifs <;> simp

/-- When `_update_blink` returns `False`, the resulting blink state is
`_IDLE`. -/
theorem update_blink_false_idle (now : Int) (r : RandGen) (s : EyesState)
    (h : (update_blink now r s).2 = false) :
    (update_blink now r s).1.blink_state = _IDLE := by
  simp only [update_blink] at *
  split_ifs at * <;> simp_all

/-- On an idle blink state, `_update_blink` is a no-op returning `False`. -/
theorem update_blink_idle (now : Int) (r : RandGen) (s : EyesState)
    (h : s.blink_state = _IDLE) :
    update_blink now r s = (s, false) := by
  unfold update_blink
  rw [if_pos h]

/-- `_update_eyelid` never touches the pupil offsets, the blink state, the
target, the rate, or the expression. -/
theorem update_eyelid_preserves (s : EyesState) :
    (update_eyelid s).1.pupil_offset_x = s.pupil_offset_x
  ∧ (update_eyelid s).1.pupil_offset_y = s.pupil_offset_y
  ∧ (update_eyelid s).1.blink_state = s.blink_state
  ∧ (update_eyelid s).1.target_lid = s.target_lid
  ∧ (update_eyelid s).1.lid_speed = s.lid_speed
  ∧ (update_eyelid s).1.expression = s.expression := by
  unfold update_eyelid
  split_ifs <;> simp

/-- When `_update_eyelid` returns `False`, it changed nothing. -/
theorem update_eyelid_false (s : EyesState)
    (h : (update_eyelid s).2 = false) : update_eyelid s = (s, false) := by
  unfold update_eyelid at *
  split_ifs at *
  rfl

/-- The eyelid percentage after one `_update_eyelid` step. -/
theorem lidStep_pct (s : EyesState) :
    (lidStep s).eyelid_pct =
      if s.eyelid_pct = s.target_lid then s.eyelid_pct else newPct s := by
  unfold lidStep update_eyelid
  split_ifs <;> rfl

end EyesPy

namespace EyesPy

/-- Iterated `_update_eyelid` steps reach the target once the step count
covers the initial distance (the rate is at least 1 per step). -/
theorem lidStep_converges :
    ∀ (k : ℕ) (s : EyesState), 0 < s.lid_speed →
      (s.target_lid - s.eyelid_pct).toNat ≤ k →
      (s.eyelid_pct - s.target_lid).toNat ≤ k →
      (lidStep^[k] s).eyelid_pct = s.target_lid := by
  intro k
  induction k with
  | zero =>
    intro s hsp h1 h2
    simp only [Function.iterate_zero_apply]
    omega
  | succ k ih =>
    intro s hsp h1 h2
    rw [Function.iterate_succ_apply]
    have hpres := update_eyelid_preserves s
    by_cases heq : s.eyelid_pct = s.target_lid
    · have hstep : lidStep s = s := by
        unfold lidStep update_eyelid
        rw [if_pos heq]
      rw [hstep]
      exact ih s hsp (by omega) (by omega)
    · have hpct := lidStep_pct s
      rw [if_neg heq] at hpct
      have hsp' : 0 < (lidStep s).lid_speed := by
        show 0 < (update_eyelid s).1.lid_speed
        rw [hpres.2.2.2.2.1]; exact hsp
      have htl : (lidStep s).target_lid = s.target_lid := hpres.2.2.2.1
      rw [show (lidStep^[k] (lidStep s)).eyelid_pct = s.target_lid ↔
            (lidStep^[k] (lidStep s)).eyelid_pct = (lidStep s).target_lid by
          rw [htl]]
      apply ih (lidStep s) hsp'
      · rw [htl, hpct]
        unfold newPct
        split_ifs <;> omega
      · rw [htl, hpct]
        unfold newPct
        split_ifs <;> omega

/-- C2: one `_update_eyelid` step moves `_eyelid_pct` toward `_target_lid`
by at most `_lid_speed`, never passes the target, keeps the value within
[0, 100] (given in-range inputs), is a no-op when current equals target,
and iterated steps reach the target exactly. -/
theorem c2_update_eyelid_monotone_convergence (s : EyesState)
    (h0 : 0 ≤ s.eyelid_pct) (h1 : s.eyelid_pct ≤ 100)
    (h2 : 0 ≤ s.target_lid) (h3 : s.target_lid ≤ 100)
    (hsp : 0 < s.lid_speed) :
    |(lidStep s).eyelid_pct - s.eyelid_pct| ≤ s.lid_speed
  ∧ (s.eyelid_pct ≤ s.target_lid →
      s.eyelid_pct ≤ (lidStep s).eyelid_pct ∧
      (lidStep s).eyelid_pct ≤ s.target_lid)
  ∧ (s.target_lid ≤ s.eyelid_pct →
      s.target_lid ≤ (lidStep s).eyelid_pct ∧
      (lidStep s).eyelid_pct ≤ s.eyelid_pct)
  ∧ (0 ≤ (lidStep s).eyelid_pct ∧ (lidStep s).eyelid_pct ≤ 100)
  ∧ (s.eyelid_pct = s.target_lid → update_eyelid s = (s, false))
  ∧ (∃ n : ℕ, (lidStep^[n] s).eyelid_pct = s.target_lid) := by
  have hpct := lidStep_pct s
  refine ⟨?_, ?_, ?_, ?_, ?_, ?_⟩
  · rw [abs_le, hpct]
    unfold newPct
    split_ifs <;> constructor <;> omega
  · intro hle
    rw [hpct]
    unfold newPct
    split_ifs <;> constructor <;> omega
  · intro hle
    rw [hpct]
    unfold newPct
    split_ifs <;> constructor <;> omega
  · rw [hpct]
    unfold newPct
    split_ifs <;> constructor <;> omega
  · intro heq
    unfold update_eyelid
    rw [if_pos heq]
  · refine ⟨(s.target_lid - s.eyelid_pct).toNat + (s.eyelid_pct - s.target_lid).toNat, ?_⟩
    exact lidStep_converges _ s hsp (by omega) (by omega)

/-- A concrete easing state: lid at 10, target 45, rate 2. -/
def sEase : EyesState :=
  { initState 0 rfun0 with eyelid_pct := 10, target_lid := 45, lid_speed := 2 }

/-- Witness for C2 at the concrete state `sEase`. -/
theorem c2_update_eyelid_monotone_convergence_witness :
    |(lidStep sEase).eyelid_pct - sEase.eyelid_pct| ≤ sEase.lid_speed
  ∧ (sEase.eyelid_pct ≤ sEase.target_lid →
      sEase.eyelid_pct ≤ (lidStep sEase).eyelid_pct ∧
      (lidStep sEase).eyelid_pct ≤ sEase.target_lid)
  ∧ (sEase.target_lid ≤ sEase.eyelid_pct →
      sEase.target_lid ≤ (lidStep sEase).eyelid_pct ∧
      (lidStep sEase).eyelid_pct ≤ sEase.eyelid_pct)
  ∧ (0 ≤ (lidStep sEase).eyelid_pct ∧ (lidStep sEase).eyelid_pct ≤ 100)
  ∧ (sEase.eyelid_pct = sEase.target_lid → update_eyelid sEase = (sEase, false))
  ∧ (∃ n : ℕ, (lidStep^[n] sEase).eyelid_pct = sEase.target_lid) :=
  c2_update_eyelid_monotone_convergence sEase (by decide) (by decide)
    (by decide) (by decide) (by decide)

end EyesPy

namespace EyesPy

/-- Any sequence of `_update_blink` calls preserves the eyelid fields and
the pupil offsets. -/
theorem runBlink_preserves (ticks : List (Int × RandGen)) (s : EyesState) :
    (runBlink ticks s).eyelid_pct = s.eyelid_pct
  ∧ (runBlink ticks s).target_lid = s.target_lid
  ∧ (runBlink ticks s).lid_speed = s.lid_speed
  ∧ (runBlink ticks s).pupil_offset_x = s.pupil_offset_x
  ∧ (runBlink ticks s).pupil_offset_y = s.pupil_offset_y := by
  induction ticks generalizing s with
  | nil => simp [runBlink]
  | cons t ts ih =>
    have hb := update_blink_preserves t.1 t.2 s
    have hr := ih ((update_blink t.1 t.2 s).1)
    simp only [runBlink, List.foldl_cons] at hr ⊢
    exact ⟨hr.1.trans hb.1, hr.2.1.trans hb.2.1, hr.2.2.1.trans hb.2.2.1,
      hr.2.2.2.1.trans hb.2.2.2.1, hr.2.2.2.2.trans hb.2.2.2.2.1⟩

/-- C3: the blink state machine never mutates persistent eyelid state: after
`_start_blink` and any sequence of `_update_blink` ticks — in particular a
complete cycle Idle → Closing-1 → Closing-2 → Closing-3 → Closed → Idle,
exhibited in the second conjunct by concrete dwell-respecting tick times —
`_eyelid_pct`, `_target_lid`, `_lid_speed` and the pupil offsets equal
their pre-blink values. -/
theorem c3_blink_cycle_preserves_persistent_state (s : EyesState) (t0 : Int) :
    (∀ ticks : List (Int × RandGen),
        (runBlink ticks (start_blink t0 s)).eyelid_pct = s.eyelid_pct
      ∧ (runBlink ticks (start_blink t0 s)).target_lid = s.target_lid
      ∧ (runBlink ticks (start_blink t0 s)).lid_speed = s.lid_speed
      ∧ (runBlink ticks (start_blink t0 s)).pupil_offset_x = s.pupil_offset_x
      ∧ (runBlink ticks (start_blink t0 s)).pupil_offset_y = s.pupil_offset_y)
  ∧ (∀ r : RandGen,
      (runBlink [(t0 + 15, r), (t0 + 30, r), (t0 + 45, r), (t0 + 105, r)]
        (start_blink t0 s)).blink_state = _IDLE) := by
  constructor
  · intro ticks
    have h := runBlink_preserves ticks (start_blink t0 s)
    exact h
  · intro r
    have d1 : t0 + 15 - t0 = (15 : Int) := by omega
    have d2 : t0 + 30 - (t0 + 15) = (15 : Int) := by omega
    have d3 : t0 + 45 - (t0 + 30) = (15 : Int) := by omega
    have d4 : t0 + 105 - (t0 + 45) = (60 : Int) := by omega
    have e1 : update_blink (t0 + 15) r (start_blink t0 s) =
        ({ s with blink_state := _CLOSE_2, blink_time := t0 + 15 }, true) := by
      simp [update_blink, start_blink, _IDLE, _CLOSE_1, _CLOSE_2, d1]
    have e2 : update_blink (t0 + 30) r
        ({ s with blink_state := _CLOSE_2, blink_time := t0 + 15 }) =
        ({ s with blink_state := _CLOSE_3, blink_time := t0 + 30 }, true) := by
      simp [update_blink, _IDLE, _CLOSE_1, _CLOSE_2, _CLOSE_3, d2]
    have e3 : update_blink (t0 + 45) r
        ({ s with blink_state := _CLOSE_3, blink_time := t0 + 30 }) =
        ({ s with blink_state := _CLOSED, blink_time := t0 + 45 }, true) := by
      simp [update_blink, _IDLE, _CLOSE_1, _CLOSE_2, _CLOSE_3, _CLOSED, d3]
    have e4 : (update_blink (t0 + 105) r
        ({ s with blink_state := _CLOSED, blink_time := t0 + 45 })).1.blink_state
        = _IDLE := by
      simp [update_blink, _IDLE, _CLOSE_1, _CLOSE_2, _CLOSE_3, _CLOSED, d4]
    simp only [runBlink, List.foldl_cons, List.foldl_nil]
    simp only [e1, e2, e3]
    exact e4

end EyesPy

namespace EyesPy

/-- When the blink step reports activity, `update` is exactly the blink
step. -/
theorem update_eq_blink (now : Int) (r : RandGen) (s : EyesState)
    (h : (update_blink now r s).2 = true) :
    update now r s = (update_blink now r s).1 := by
  simp only [update]
  rw [h]
  simp

/-- When the blink step reports no activity and the eyelid step reports a
change, `update` is exactly the eyelid step applied after the blink step. -/
theorem update_eq_ease (now : Int) (r : RandGen) (s : EyesState)
    (h1 : (update_blink now r s).2 = false)
    (h2 : (update_eyelid (update_blink now r s).1).2 = true) :
    update now r s = (update_eyelid (update_blink now r s).1).1 := by
  simp only [update]
  rw [h1, h2]
  simp

/-- When neither blink nor eyelid stage reports activity and the engine is
asleep with a fully closed lid, `update` stops at the asleep guard. -/
theorem update_eq_guard (now : Int) (r : RandGen) (s : EyesState)
    (h1 : (update_blink now r s).2 = false)
    (h2 : (update_eyelid (update_blink now r s).1).2 = false)
    (h3 : (update_eyelid (update_blink now r s).1).1.expression = EXPR_ASLEEP)
    (h4 : 100 ≤ (update_eyelid (update_blink now r s).1).1.eyelid_pct) :
    update now r s = (update_eyelid (update_blink now r s).1).1 := by
  simp only [update]
  rw [h1, h2]
  simp only [Bool.false_eq_true, if_false]
  rw [if_pos ⟨h3, h4⟩]

/-! ### C4 -/

/-- C4 (counterexample): the claim "while any non-Idle blink state is
active neither the eyelid easing step nor any gaze/idle motion routine runs
that tick" is false on the tick a blink completes: starting in the
`_CLOSED` stage with its dwell elapsed, `_update_blink` finishes the blink,
returns `False`, and the eyelid easing step runs in the same `update()`
call, changing `_eyelid_pct`. -/
theorem c4_counterexample_easing_runs_on_blink_completion_tick :
    sClosed.blink_state ≠ _IDLE ∧
    (update 100 rfun0 sClosed).eyelid_pct ≠ sClosed.eyelid_pct := by
  constructor <;> decide

/-- C4 (amended): within one `update()` call the blink step runs first,
then eyelid easing, then gaze motion.  If the blink step leaves a non-Idle
state (returns `True`), nothing else runs that tick — `update` equals the
blink step alone.  If the blink step returns `False` (idle, or the tick on
which a blink completes) and the eyelid step reports a change, `update`
equals the eyelid step applied after the blink step: no blink is triggered
(the blink state is Idle afterwards) and the pupil offsets are untouched
that tick. -/
theorem c4_update_stage_ordering (now : Int) (r : RandGen) (s : EyesState) :
    ((update_blink now r s).2 = true →
      update now r s = (update_blink now r s).1)
  ∧ ((update_blink now r s).2 = false →
      (update_eyelid (update_blink now r s).1).2 = true →
        update now r s = (update_eyelid (update_blink now r s).1).1
      ∧ (update now r s).blink_state = _IDLE
      ∧ (update now r s).pupil_offset_x = s.pupil_offset_x
      ∧ (update now r s).pupil_offset_y = s.pupil_offset_y) := by
  constructor
  · exact update_eq_blink now r s
  · intro h1 h2
    have he := update_eq_ease now r s h1 h2
    have hbp := update_blink_preserves now r s
    have hep := update_eyelid_preserves (update_blink now r s).1
    have hidle := update_blink_false_idle now r s h1
    refine ⟨he, ?_, ?_, ?_⟩
    · rw [he, hep.2.2.1, hidle]
    · rw [he, hep.1, hbp.2.2.2.1]
    · rw [he, hep.2.1, hbp.2.2.2.2.1]

/-- Witness for the amended C4: in the first closing stage with the dwell
elapsed, `update` is exactly the blink step. -/
theorem c4_update_stage_ordering_witness :
    update 100 rfun0 sBlinking = (update_blink 100 rfun0 sBlinking).1 :=
  (c4_update_stage_ordering 100 rfun0 sBlinking).1 (by decide)

end EyesPy

namespace EyesPy

/-- `set_expression("asleep")` establishes the asleep invariant and keeps
the current eyelid level. -/
theorem set_expression_asleep_inv (now0 : Int) (r0 : RandGen) (s : EyesState)
    (hb : s.blink_state = _IDLE) (h0 : 0 ≤ s.eyelid_pct)
    (h1 : s.eyelid_pct ≤ 100) :
    AsleepInv (set_expression now0 r0 "asleep" s) ∧
    (set_expression now0 r0 "asleep" s).eyelid_pct = s.eyelid_pct := by
  have hform : set_expression now0 r0 "asleep" s =
      look_at 0 1
        { s with expression := EXPR_ASLEEP, target_lid := 100, lid_speed := 1 } := by
    unfold set_expression
    rw [if_pos rfl]
  rw [hform]
  unfold look_at AsleepInv
  refine ⟨⟨rfl, rfl, rfl, hb, h0, h1, ?_, ?_⟩, rfl⟩
  · show pyTrunc ((0 : ℚ) * 12) = 0
    rw [show ((0 : ℚ) * 12) = ((0 : ℤ) : ℚ) by norm_num, pyTrunc_intCast]
  · show pyTrunc ((1 : ℚ) * 20) = 20
    rw [show ((1 : ℚ) * 20) = ((20 : ℤ) : ℚ) by norm_num, pyTrunc_intCast]

/-- One `update` tick under the asleep invariant: the invariant is kept and
the eyelid level rises by exactly the rate 1, clamped at 100. -/
theorem asleep_step (t : EyesState) (now : Int) (r : RandGen)
    (h : AsleepInv t) :
    AsleepInv (update now r t) ∧
    (update now r t).eyelid_pct = min (t.eyelid_pct + 1) 100 := by
  obtain ⟨he, ht, hs, hb, h0, h1, hx, hy⟩ := h
  have hblink : update_blink now r t = (t, false) := update_blink_idle now r t hb
  by_cases hpq : t.eyelid_pct = 100
  · have heq : t.eyelid_pct = t.target_lid := by omega
    have hq : update_eyelid t = (t, false) := by
      unfold update_eyelid
      rw [if_pos heq]
    have hupd : update now r t = t := by
      have hg := update_eq_guard now r t (by rw [hblink])
        (by rw [hblink]; show (update_eyelid t).2 = false; rw [hq])
        (by rw [hblink]; show (update_eyelid t).1.expression = EXPR_ASLEEP
            rw [hq]; exact he)
        (by rw [hblink]; show 100 ≤ (update_eyelid t).1.eyelid_pct
            rw [hq]; show 100 ≤ t.eyelid_pct; omega)
      rw [hblink] at hg
      rw [show ((t, false) : EyesState × Bool).1 = t from rfl] at hg
      rw [hq] at hg
      exact hg
    rw [hupd]
    exact ⟨⟨he, ht, hs, hb, h0, h1, hx, hy⟩, by omega⟩
  · have hne : ¬ t.eyelid_pct = t.target_lid := by omega
    have hlt : t.eyelid_pct < t.target_lid := by omega
    have hq2 : (update_eyelid t).2 = true := by
      unfold update_eyelid
      rw [if_neg hne]
    have hupd : update now r t = (update_eyelid t).1 := by
      have h' := update_eq_ease now r t (by rw [hblink])
        (by rw [hblink]; exact hq2)
      rw [hblink] at h'
      exact h'
    have hpres := update_eyelid_preserves t
    have hpct : (update_eyelid t).1.eyelid_pct = min (t.eyelid_pct + 1) 100 := by
      have hstep := lidStep_pct t
      rw [if_neg hne] at hstep
      rw [show (update_eyelid t).1.eyelid_pct = newPct t from hstep]
      unfold newPct
      rw [if_pos hlt, hs, ht]
    refine ⟨⟨?_, ?_, ?_, ?_, ?_, ?_, ?_, ?_⟩, ?_⟩
    · rw [hupd, hpres.2.2.2.2.2]; exact he
    · rw [hupd, hpres.2.2.2.1]; exact ht
    · rw [hupd, hpres.2.2.2.2.1]; exact hs
    · rw [hupd, hpres.2.2.1]; exact hb
    · rw [hupd, hpct]; omega
    · rw [hupd, hpct]; omega
    · rw [hupd, hpres.1]; exact hx
    · rw [hupd, hpres.2.1]; exact hy
    · rw [hupd, hpct]

/-- Folding `update` ticks under the asleep invariant: the eyelid level is
the clamped sum of the starting level and the tick count. -/
theorem asleep_run (ticks : List (Int × RandGen)) :
    ∀ t : EyesState, AsleepInv t →
      AsleepInv (runUpdates ticks t) ∧
      (runUpdates ticks t).eyelid_pct =
        min (t.eyelid_pct + (ticks.length : Int)) 100 := by
  induction ticks with
  | nil =>
    intro t h
    have h1 : t.eyelid_pct ≤ 100 := h.2.2.2.2.2.1
    constructor
    · simpa [runUpdates] using h
    · simp only [runUpdates, List.foldl_nil, List.length_nil]
      omega
  | cons a ts ih =>
    intro t h
    have hstep := asleep_step t a.1 a.2 h
    have hrun := ih _ hstep.1
    have h1 : t.eyelid_pct ≤ 100 := h.2.2.2.2.2.1
    have h0 : 0 ≤ t.eyelid_pct := h.2.2.2.2.1
    simp only [runUpdates, List.foldl_cons] at hrun ⊢
    refine ⟨hrun.1, ?_⟩
    rw [hrun.2, hstep.2]
    simp only [List.length_cons]
    push_cast
    omega

/-- Once the expression is asleep with a fully closed lid, an `update`
tick never moves the pupils and never starts a blink. -/
theorem asleep_no_blink_no_motion (t : EyesState) (now : Int) (r : RandGen)
    (he : t.expression = EXPR_ASLEEP) (hp : 100 ≤ t.eyelid_pct) :
    (update now r t).pupil_offset_x = t.pupil_offset_x
  ∧ (update now r t).pupil_offset_y = t.pupil_offset_y
  ∧ (t.blink_state = _IDLE → (update now r t).blink_state = _IDLE) := by
  have hbp := update_blink_preserves now r t
  cases hB : (update_blink now r t).2 with
  | true =>
    have hu := update_eq_blink now r t hB
    refine ⟨by rw [hu, hbp.2.2.2.1], by rw [hu, hbp.2.2.2.2.1], ?_⟩
    intro hidl
    have hno := update_blink_idle now r t hidl
    rw [hno] at hB
    simp at hB
  | false =>
    have hep := update_eyelid_preserves (update_blink now r t).1
    have hidle := update_blink_false_idle now r t hB
    cases hQ : (update_eyelid (update_blink now r t).1).2 with
    | true =>
      have hu := update_eq_ease now r t hB hQ
      refine ⟨?_, ?_, ?_⟩
      · rw [hu, hep.1, hbp.2.2.2.1]
      · rw [hu, hep.2.1, hbp.2.2.2.2.1]
      · intro hidl
        rw [hu, hep.2.2.1, hidle]
    | false =>
      have hqe := update_eyelid_false _ hQ
      have h3 : (update_eyelid (update_blink now r t).1).1.expression
          = EXPR_ASLEEP := by
        rw [hqe]
        show (update_blink now r t).1.expression = EXPR_ASLEEP
        rw [hbp.2.2.2.2.2]
        exact he
      have h4 : 100 ≤ (update_eyelid (update_blink now r t).1).1.eyelid_pct := by
        rw [hqe]
        show 100 ≤ (update_blink now r t).1.eyelid_pct
        rw [hbp.1]
        exact hp
      have hu := update_eq_guard now r t hB hQ h3 h4
      refine ⟨?_, ?_, ?_⟩
      · rw [hu, hqe]
        show (update_blink now r t).1.pupil_offset_x = t.pupil_offset_x
        rw [hbp.2.2.2.1]
      · rw [hu, hqe]
        show (update_blink now r t).1.pupil_offset_y = t.pupil_offset_y
        rw [hbp.2.2.2.2.1]
      · intro hidl
        rw [hu, hqe]
        show (update_blink now r t).1.blink_state = _IDLE
        exact hidle

/-- C5: after `set_expression("asleep")` on a blink-idle engine with an
in-range eyelid level, enough `update()` ticks drive the eyelid level to
exactly 100 and it stays there for any longer tick sequence; along the
whole trajectory the gaze stays parked at (0, 20) and the blink state stays
Idle; and in general, once the expression is asleep with
`_eyelid_pct >= 100`, an `update()` call never moves the pupils and never
enters `_start_blink`. -/
theorem c5_asleep_converges_and_suppresses (s : EyesState) (now0 : Int)
    (r0 : RandGen) (hb : s.blink_state = _IDLE) (h0 : 0 ≤ s.eyelid_pct)
    (h1 : s.eyelid_pct ≤ 100) :
    (∀ ticks : List (Int × RandGen),
        (100 : Int) ≤ s.eyelid_pct + (ticks.length : Int) →
        (runUpdates ticks (set_expression now0 r0 "asleep" s)).eyelid_pct = 100)
  ∧ (∀ ticks : List (Int × RandGen),
        (runUpdates ticks (set_expression now0 r0 "asleep" s)).pupil_offset_x = 0
      ∧ (runUpdates ticks (set_expression now0 r0 "asleep" s)).pupil_offset_y = 20
      ∧ (runUpdates ticks (set_expression now0 r0 "asleep" s)).blink_state = _IDLE)
  ∧ (∀ (t : EyesState) (now : Int) (r : RandGen),
        t.expression = EXPR_ASLEEP → 100 ≤ t.eyelid_pct →
        (update now r t).pupil_offset_x = t.pupil_offset_x
      ∧ (update now r t).pupil_offset_y = t.pupil_offset_y
      ∧ (t.blink_state = _IDLE → (update now r t).blink_state = _IDLE)) := by
  have hinv := set_expression_asleep_inv now0 r0 s hb h0 h1
  refine ⟨?_, ?_, fun t now r he hp => asleep_no_blink_no_motion t now r he hp⟩
  · intro ticks hlen
    have hr := asleep_run ticks _ hinv.1
    rw [hr.2, hinv.2]
    omega
  · intro ticks
    have hr := asleep_run ticks _ hinv.1
    exact ⟨hr.1.2.2.2.2.2.2.1, hr.1.2.2.2.2.2.2.2, hr.1.2.2.2.1⟩

/-- Witness for C5: from the default engine, 100 ticks after
`set_expression("asleep")` the eyelid level is exactly 100. -/
theorem c5_asleep_converges_and_suppresses_witness :
    (runUpdates (List.replicate 100 ((1 : Int), rfun0))
      (set_expression 0 rfun0 "asleep" (initState 0 rfun0))).eyelid_pct = 100 :=
  (c5_asleep_converges_and_suppresses (initState 0 rfun0) 0 rfun0 rfl
    (by decide) (by decide)).1 (List.replicate 100 ((1 : Int), rfun0))
    (by simp [initState])

end EyesPy
